import Mathlib

/-!
Verification of the SalesBuddy forecast & pipeline-health engine.

This file shallowly embeds the engine of `client/src/lib/forecastUtils.ts`
(together with the data model of `client/src/lib/mockData.ts`) and proves
the specified properties about it.

Modelling conventions:
* Monetary amounts and the numeric metrics are rationals (ℚ); JavaScript
  floating-point rounding is not modelled, but the JavaScript behaviour of
  division by zero (Infinity / NaN) is modelled explicitly by `JsNum`
  wherever the source divides without a zero guard.
* ISO-8601 date-time strings are modelled by their parsed timestamps:
  an integer count of milliseconds since the Unix epoch (UTC).  `parseISO`
  is therefore the identity.  Per the spec (§7) malformed dates are a
  precondition violation and are not modelled.
* `stage` and `confidence` are runtime strings, as in JavaScript; the
  canonical 5-stage enum of `mockData.ts` is expressed as a predicate.
* The ambient clock (`const now = new Date()` inside the source functions)
  is modelled by an explicit final parameter `now`.
-/

namespace SalesBuddy

/-! ## Time model -/

/-- Milliseconds in one day. -/
def msPerDay : ℤ := 86400000

/-- date-fns `differenceInDays a b`: the number of whole days between the
two timestamps, truncated toward zero (no DST in the UTC model). -/
def differenceInDays (a b : ℤ) : ℤ := (a - b).tdiv msPerDay

/-- Civil day number of a timestamp: floor division by the day length. -/
def dayNumber (t : ℤ) : ℤ := t.fdiv msPerDay

/-- Proleptic-Gregorian (year, month) of a civil day number
(days since 1970-01-01), by the standard era decomposition. -/
def yearMonthOfDay (z0 : ℤ) : ℤ × ℕ :=
  let z : ℤ := z0 + 719468
  let era : ℤ := z.fdiv 146097
  let doe : ℕ := (z - era * 146097).toNat
  let yoe : ℕ := (doe - doe / 1460 + doe / 36524 - doe / 146096) / 365
  let y : ℤ := (yoe : ℤ) + era * 400
  let doy : ℕ := doe - (365 * yoe + yoe / 4 - yoe / 100)
  let mp : ℕ := (5 * doy + 2) / 153
  let m : ℕ := if mp < 10 then mp + 3 else mp - 9
  (if mp < 10 then y else y + 1, m)

/-- Calendar (year, month) of a timestamp. -/
def yearMonth (t : ℤ) : ℤ × ℕ := yearMonthOfDay (dayNumber t)

/-- date-fns `isSameMonth`: the two timestamps fall in the same calendar
month of the same year. -/
def isSameMonth (a b : ℤ) : Bool := decide (yearMonth a = yearMonth b)

/-! ## JavaScript number results

JavaScript division by zero does not throw: it produces `Infinity`,
`-Infinity` or `NaN`.  `JsNum` records the result of an arithmetic
expression that may have divided by zero; all other arithmetic stays in ℚ. -/

/-- Result of a JavaScript numeric expression: a finite (rational) value,
one of the two infinities, or NaN. -/
inductive JsNum : Type where
  | num (q : ℚ)
  | posInf
  | negInf
  | nan
deriving DecidableEq, Repr

/-- JavaScript division of two finite numbers (`a / b`). -/
def jsDiv (a b : ℚ) : JsNum :=
  if b = 0 then
    if 0 < a then .posInf else if a < 0 then .negInf else .nan
  else .num (a / b)

/-- JavaScript `Math.abs` on a possibly non-finite value. -/
def jsAbs : JsNum → JsNum
  | .num q => .num |q|
  | .posInf => .posInf
  | .negInf => .posInf
  | .nan => .nan

/-- JavaScript addition where either operand may be non-finite. -/
def jsAdd : JsNum → JsNum → JsNum
  | .nan, _ => .nan
  | _, .nan => .nan
  | .posInf, .negInf => .nan
  | .negInf, .posInf => .nan
  | .posInf, _ => .posInf
  | _, .posInf => .posInf
  | .negInf, _ => .negInf
  | _, .negInf => .negInf
  | .num a, .num b => .num (a + b)

/-- JavaScript multiplication of a possibly non-finite value by a finite one. -/
def jsMulNum : JsNum → ℚ → JsNum
  | .num a, c => .num (a * c)
  | .posInf, c => if 0 < c then .posInf else if c < 0 then .negInf else .nan
  | .negInf, c => if 0 < c then .negInf else if c < 0 then .posInf else .nan
  | .nan, _ => .nan

/-- JavaScript division of a possibly non-finite value by a finite one. -/
def jsDivNum : JsNum → ℚ → JsNum
  | .num a, c => jsDiv a c
  | .posInf, c => if c < 0 then .negInf else .posInf
  | .negInf, c => if c < 0 then .posInf else .negInf
  | .nan, _ => .nan

/-! ## Data model (`mockData.ts`) -/

/-- A sales opportunity (`interface Deal` of `mockData.ts`); date fields
hold parsed timestamps, `activities` is out of engine scope and omitted. -/
structure Deal : Type where
  id : String
  accountId : String
  ownerId : String
  ownerName : String
  title : String
  amount : ℚ
  currency : String
  stage : String
  confidence : String
  closeDate : ℤ
  lastActivityDate : ℤ
  nextStep : String
  nextStepDate : ℤ
  createdAt : ℤ
  updatedAt : ℤ
  probability : ℤ
deriving DecidableEq, Repr

/-- One month of revenue history (`interface HistoricalRevenue`). -/
structure HistoricalRevenue : Type where
  month : String
  forecasted : ℚ
  actual : ℚ
deriving DecidableEq, Repr

/-- The canonical 5-stage enum of `mockData.ts`:
`type Stage = "LEAD" | "UNCOMMITTED" | "COMMITTED" | "WON" | "LOST"`. -/
def canonicalStages : List String := ["LEAD", "UNCOMMITTED", "COMMITTED", "WON", "LOST"]

/-! ## The engine of `forecastUtils.ts`

Each local accumulator of `calculateForecast` is lifted to a top-level
definition parameterised by the function's inputs, so that the theorems can
speak about the individual metrics; `calculateForecast` assembles them
exactly as the source returns them. -/

namespace ForecastUtils

/-- `const STALE_THRESHOLD_DAYS = 7`. -/
def STALE_THRESHOLD_DAYS : ℤ := 7

/-- The metrics record returned by `calculateForecast`
(`interface DashboardMetrics`); `mape` and `momGrowth` may be non-finite
because the source divides without a zero guard there. -/
structure DashboardMetrics : Type where
  conservative : ℚ
  base : ℚ
  optimistic : ℚ
  pipelineValue : ℚ
  committedValue : ℚ
  uncommittedValue : ℚ
  closedWon : ℚ
  mape : JsNum
  hygieneScore : ℚ
  freshnessScore : ℚ
  winRate : ℚ
  momGrowth : JsNum
deriving DecidableEq, Repr

/-- `deals.filter(d => d.stage !== "CLOSED_WON" && d.stage !== "CLOSED_LOST")`. -/
def activeDeals (deals : List Deal) : List Deal :=
  deals.filter (fun d => d.stage != "CLOSED_WON" && d.stage != "CLOSED_LOST")

/-- `deals.filter(d => d.stage === "CLOSED_WON")`. -/
def wonDeals (deals : List Deal) : List Deal :=
  deals.filter (fun d => d.stage == "CLOSED_WON")

/-- `deals.filter(d => d.stage === "CLOSED_LOST")`. -/
def lostDeals (deals : List Deal) : List Deal :=
  deals.filter (fun d => d.stage == "CLOSED_LOST")

/-- Win rate: `totalClosed > 0 ? (wonDeals.length / totalClosed) * 100 : 0`. -/
def winRate (deals : List Deal) : ℚ :=
  let totalClosed : ℕ := (wonDeals deals).length + (lostDeals deals).length
  if 0 < totalClosed then (((wonDeals deals).length : ℚ) / (totalClosed : ℚ)) * 100 else 0

/-- Hygiene completeness test of one deal.  The truthiness tests of the two
date fields of the source are modelled as passing: a parsed date stems from
a (nonempty, hence truthy) well-formed ISO string. -/
def hygienePassing (d : Deal) : Bool :=
  decide (d.stage ≠ "" ∧ d.confidence ≠ "" ∧ d.nextStep ≠ "" ∧ 0 < d.amount)

/-- Hygiene score: share of active deals passing `hygienePassing`,
defaulting to 100 with no active deals. -/
def hygieneScore (deals : List Deal) : ℚ :=
  if 0 < (activeDeals deals).length then
    ((((activeDeals deals).filter hygienePassing).length : ℚ)
      / ((activeDeals deals).length : ℚ)) * 100
  else 100

/-- Freshness test: `differenceInDays(now, parseISO(d.lastActivityDate)) <= 7`. -/
def isFresh (now : ℤ) (d : Deal) : Bool :=
  decide (differenceInDays now d.lastActivityDate ≤ 7)

/-- Freshness score: share of active deals updated within the last 7 days,
defaulting to 100 with no active deals. -/
def freshnessScore (deals : List Deal) (now : ℤ) : ℚ :=
  if 0 < (activeDeals deals).length then
    ((((activeDeals deals).filter (isFresh now)).length : ℚ)
      / ((activeDeals deals).length : ℚ)) * 100
  else 100

/-- MAPE: `(Σ |(actual - forecasted) / actual| / n) * 100` over the history,
0 for empty history.  The inner division carries no zero guard in the
source, hence the `JsNum` result. -/
def mape (history : List HistoricalRevenue) : JsNum :=
  if 0 < history.length then
    jsMulNum
      (jsDivNum
        (history.foldl
          (fun acc r => jsAdd acc (jsAbs (jsDiv (r.actual - r.forecasted) r.actual)))
          (JsNum.num 0))
        (history.length : ℚ))
      100
  else JsNum.num 0

/-- Month-over-month growth: `((last - prev) / prev) * 100` over the final
two history entries when `history.length >= 2`, else 0.  The division
carries no zero guard in the source, hence the `JsNum` result. -/
def momGrowth (history : List HistoricalRevenue) : JsNum :=
  if h : 2 ≤ history.length then
    jsMulNum
      (jsDiv
        ((history.get ⟨history.length - 1, by omega⟩).actual
          - (history.get ⟨history.length - 2, by omega⟩).actual)
        (history.get ⟨history.length - 2, by omega⟩).actual)
      100
  else JsNum.num 0

/-- `activeDeals.filter(d => isSameMonth(parseISO(d.closeDate), targetDate))`. -/
def dealsInTargetMonth (deals : List Deal) (targetDate : ℤ) : List Deal :=
  (activeDeals deals).filter (fun d => isSameMonth d.closeDate targetDate)

/-- `wonDeals.filter(d => isSameMonth(parseISO(d.closeDate), targetDate))`. -/
def wonInTargetMonth (deals : List Deal) (targetDate : ℤ) : List Deal :=
  (wonDeals deals).filter (fun d => isSameMonth d.closeDate targetDate)

/-- `wonInTargetMonth.reduce((sum, d) => sum + d.amount, 0)`. -/
def realizedRevenue (deals : List Deal) (targetDate : ℤ) : ℚ :=
  ((wonInTargetMonth deals targetDate).map (fun d => d.amount)).sum

/-- `differenceInDays(now, parseISO(deal.lastActivityDate))`. -/
def daysSinceActivity (now : ℤ) (d : Deal) : ℤ :=
  differenceInDays now d.lastActivityDate

/-- `differenceInDays(parseISO(deal.nextStepDate), now)`. -/
def daysToNextStep (now : ℤ) (d : Deal) : ℤ :=
  differenceInDays d.nextStepDate now

/-- Pipeline segmentation: every deal of the target month adds its amount. -/
def pipelineRaw (deals : List Deal) (targetDate : ℤ) : ℚ :=
  ((dealsInTargetMonth deals targetDate).map (fun d => d.amount)).sum

/-- Committed bucket accumulation: `if (isHigh) committedValue += deal.amount`. -/
def committedRaw (deals : List Deal) (targetDate : ℤ) : ℚ :=
  ((dealsInTargetMonth deals targetDate).map
    (fun d => if d.confidence = "HIGH" then d.amount else 0)).sum

/-- Uncommitted bucket accumulation: the `else` branch of the segmentation. -/
def uncommittedRaw (deals : List Deal) (targetDate : ℤ) : ℚ :=
  ((dealsInTargetMonth deals targetDate).map
    (fun d => if d.confidence = "HIGH" then 0 else d.amount)).sum

/-- Conservative accumulation: high confidence, next step within 14 days,
not stale. -/
def conservativeRaw (deals : List Deal) (targetDate now : ℤ) : ℚ :=
  ((dealsInTargetMonth deals targetDate).map
    (fun d =>
      if d.confidence = "HIGH" ∧ daysToNextStep now d ≤ 14
          ∧ daysSinceActivity now d ≤ STALE_THRESHOLD_DAYS
      then d.amount else 0)).sum

/-- The base inclusion test of the source:
`(isHigh || isMedium) && daysToNextStep <= 30`. -/
def inBase (now : ℤ) (d : Deal) : Prop :=
  (d.confidence = "HIGH" ∨ d.confidence = "MEDIUM") ∧ daysToNextStep now d ≤ 30

instance (now : ℤ) (d : Deal) : Decidable (inBase now d) := by
  unfold inBase; infer_instance

/-- Base accumulation: high or medium confidence with next step within 30 days. -/
def baseRaw (deals : List Deal) (targetDate now : ℤ) : ℚ :=
  ((dealsInTargetMonth deals targetDate).map
    (fun d => if inBase now d then d.amount else 0)).sum

/-- Optimistic delta: deals outside base that are low confidence or a big
(`> 100000`) early-stage (`"DISCOVERY"`) deal. -/
def optimisticDelta (deals : List Deal) (targetDate now : ℤ) : ℚ :=
  ((dealsInTargetMonth deals targetDate).map
    (fun d =>
      if ¬ inBase now d ∧ (d.confidence = "LOW" ∨ (100000 < d.amount ∧ d.stage = "DISCOVERY"))
      then d.amount else 0)).sum

/-- `calculateForecast(deals, targetDate, history)` of `forecastUtils.ts`.
The trailing `now` models `const now = new Date()` read at entry (line 49
of the source): it is ambient clock state, not a source parameter. -/
def calculateForecast (deals : List Deal) (targetDate : ℤ)
    (history : List HistoricalRevenue) (now : ℤ) : DashboardMetrics :=
  { conservative := conservativeRaw deals targetDate now + realizedRevenue deals targetDate
    base := baseRaw deals targetDate now + realizedRevenue deals targetDate
    optimistic := baseRaw deals targetDate now + realizedRevenue deals targetDate
      + optimisticDelta deals targetDate now
    pipelineValue := pipelineRaw deals targetDate + realizedRevenue deals targetDate
    committedValue := committedRaw deals targetDate + realizedRevenue deals targetDate
    uncommittedValue := uncommittedRaw deals targetDate
    closedWon := realizedRevenue deals targetDate
    mape := mape history
    hygieneScore := hygieneScore deals
    freshnessScore := freshnessScore deals now
    winRate := winRate deals
    momGrowth := momGrowth history }

/-- `isDealStale(deal)` of `forecastUtils.ts`; the trailing `now` models
`const now = new Date()` read at entry. -/
def isDealStale (deal : Deal) (now : ℤ) : Bool :=
  decide (STALE_THRESHOLD_DAYS < differenceInDays now deal.lastActivityDate)

/-- `getConcentrationRisk(deals, totalValue)` of `forecastUtils.ts`. -/
def getConcentrationRisk (deals : List Deal) (totalValue : ℚ) : Bool :=
  if totalValue = 0 then false
  else
    let sortedDeals := deals.mergeSort (fun a b => decide (b.amount ≤ a.amount))
    let top2Total := ((sortedDeals.head?.map (fun d => d.amount)).getD 0)
      + (((sortedDeals.drop 1).head?.map (fun d => d.amount)).getD 0)
    decide (3 / 10 < top2Total / totalValue)

end ForecastUtils

/-! ## The canonical stage-direct engine

Modelled from the spec: the canonical forecast engine (§4.3) of the later
5-stage model — the revision that produces `leadsValue` and tests the
stages `WON` / `LOST` — is not under `src/`; only its Dashboard caller
(which reads `metrics.leadsValue`) and the 5-stage `Stage` type of
`mockData.ts` are.  `computeForecast` below follows the spec's §4.3 steps
verbatim. -/

namespace SpecModel

/-- Modelled from the spec: the forecast-field part of the metrics record,
§3 — the canonical model adds `leadsValue` to the §4.3 outputs. -/
structure ForecastMetrics : Type where
  conservative : ℚ
  base : ℚ
  optimistic : ℚ
  pipelineValue : ℚ
  committedValue : ℚ
  uncommittedValue : ℚ
  leadsValue : ℚ
  closedWon : ℚ
deriving DecidableEq, Repr

/-- Modelled from the spec, §4.3 Step 1: active deals (`stage ∉ {WON, LOST}`)
whose close date falls within the target calendar month. -/
def dealsInTargetMonth (deals : List Deal) (targetDate : ℤ) : List Deal :=
  deals.filter (fun d =>
    d.stage != "WON" && d.stage != "LOST" && isSameMonth d.closeDate targetDate)

/-- Modelled from the spec, §4.3 Step 1: deals with `stage = WON` and close
date in the target month. -/
def wonInTargetMonth (deals : List Deal) (targetDate : ℤ) : List Deal :=
  deals.filter (fun d => d.stage == "WON" && isSameMonth d.closeDate targetDate)

/-- Modelled from the spec, §4.3 Step 1: the realized revenue of the month. -/
def realizedRevenue (deals : List Deal) (targetDate : ℤ) : ℚ :=
  ((wonInTargetMonth deals targetDate).map (fun d => d.amount)).sum

/-- Modelled from the spec, §4.3 Step 2: a COMMITTED deal adds to the
committed bucket. -/
def committedRaw (deals : List Deal) (targetDate : ℤ) : ℚ :=
  ((dealsInTargetMonth deals targetDate).map
    (fun d => if d.stage = "COMMITTED" then d.amount else 0)).sum

/-- Modelled from the spec, §4.3 Step 2: a COMMITTED deal adds to base. -/
def baseRaw (deals : List Deal) (targetDate : ℤ) : ℚ :=
  ((dealsInTargetMonth deals targetDate).map
    (fun d => if d.stage = "COMMITTED" then d.amount else 0)).sum

/-- Modelled from the spec, §4.3 Step 2: a COMMITTED deal of HIGH confidence
also adds to conservative. -/
def conservativeRaw (deals : List Deal) (targetDate : ℤ) : ℚ :=
  ((dealsInTargetMonth deals targetDate).map
    (fun d => if d.stage = "COMMITTED" ∧ d.confidence = "HIGH" then d.amount else 0)).sum

/-- Modelled from the spec, §4.3 Step 2: an UNCOMMITTED deal adds to the
uncommitted bucket. -/
def uncommittedRaw (deals : List Deal) (targetDate : ℤ) : ℚ :=
  ((dealsInTargetMonth deals targetDate).map
    (fun d => if d.stage = "UNCOMMITTED" then d.amount else 0)).sum

/-- Modelled from the spec, §4.3 Step 2: an UNCOMMITTED deal adds to the
optimistic delta. -/
def optimisticDelta (deals : List Deal) (targetDate : ℤ) : ℚ :=
  ((dealsInTargetMonth deals targetDate).map
    (fun d => if d.stage = "UNCOMMITTED" then d.amount else 0)).sum

/-- Modelled from the spec, §4.3 Step 2: a LEAD deal adds to `leadsValue`
only. -/
def leadsRaw (deals : List Deal) (targetDate : ℤ) : ℚ :=
  ((dealsInTargetMonth deals targetDate).map
    (fun d => if d.stage = "LEAD" then d.amount else 0)).sum

/-- Modelled from the spec, §4.3 Step 2: every deal of the month adds to the
raw pipeline value. -/
def pipelineRaw (deals : List Deal) (targetDate : ℤ) : ℚ :=
  ((dealsInTargetMonth deals targetDate).map (fun d => d.amount)).sum

/-- Modelled from the spec: `computeForecast(deals, targetMonth, history)`
of §4.3, Steps 3 and 4: realized revenue is folded into conservative, base,
pipelineValue and committedValue; `optimistic = base + optimisticDelta`;
`uncommittedValue` and `leadsValue` are returned raw;
`closedWon = realizedRevenue`. -/
def computeForecast (deals : List Deal) (targetDate : ℤ) : ForecastMetrics :=
  { conservative := conservativeRaw deals targetDate + realizedRevenue deals targetDate
    base := baseRaw deals targetDate + realizedRevenue deals targetDate
    optimistic := baseRaw deals targetDate + realizedRevenue deals targetDate
      + optimisticDelta deals targetDate
    pipelineValue := pipelineRaw deals targetDate + realizedRevenue deals targetDate
    committedValue := committedRaw deals targetDate + realizedRevenue deals targetDate
    uncommittedValue := uncommittedRaw deals targetDate
    leadsValue := leadsRaw deals targetDate
    closedWon := realizedRevenue deals targetDate }

end SpecModel

/-! ## Auxiliary definitions for the statements -/

/-- A sample deal for concrete evaluations; engine-irrelevant fields are
fixed. -/
def mkDeal (stage confidence : String) (amount : ℚ)
    (closeDate lastActivityDate nextStepDate : ℤ) : Deal :=
  { id := "d1", accountId := "a1", ownerId := "o1", ownerName := "Owner"
    title := "Title", amount := amount, currency := "USD", stage := stage
    confidence := confidence, closeDate := closeDate
    lastActivityDate := lastActivityDate, nextStep := "call"
    nextStepDate := nextStepDate, createdAt := 0, updatedAt := 0
    probability := 50 }

/-- The sum of the two largest deal amounts, a missing second amount
contributing 0: the first two entries of the descending-sorted amount
list. -/
def top2Sum (deals : List Deal) : ℚ :=
  (((deals.map (fun d => d.amount)).mergeSort (fun a b => decide (b ≤ a))).take 2).sum

instance : IsAntisymm ℚ (fun a b => b ≤ a) :=
  ⟨fun _ _ h h2 => le_antisymm h2 h⟩

instance : IsTrans ℚ (fun a b => b ≤ a) :=
  ⟨fun _ _ _ h h2 => le_trans h2 h⟩

/-! ## Helper lemmas -/

theorem sum_map_add {α : Type*} (l : List α) (f g : α → ℚ) :
    (l.map (fun x => f x + g x)).sum = (l.map f).sum + (l.map g).sum := by
  induction l with
  | nil => simp
  | cons a l ih => simp only [List.map_cons, List.sum_cons, ih]; ring

/-! ## Claims about `forecastUtils.ts` -/

/-- Claim C10: the returned metrics always satisfy
`committedValue + uncommittedValue = pipelineValue` — each deal of the
target month lands in exactly one of the committed (HIGH confidence) or
uncommitted buckets and in the pipeline sum, and committedValue and
pipelineValue fold in the same realized revenue while uncommittedValue
does not. -/
theorem committed_plus_uncommitted_eq_pipeline (deals : List Deal) (targetDate : ℤ)
    (history : List HistoricalRevenue) (now : ℤ) :
    (ForecastUtils.calculateForecast deals targetDate history now).committedValue
      + (ForecastUtils.calculateForecast deals targetDate history now).uncommittedValue
      = (ForecastUtils.calculateForecast deals targetDate history now).pipelineValue := by
  show ForecastUtils.committedRaw deals targetDate + ForecastUtils.realizedRevenue deals targetDate
      + ForecastUtils.uncommittedRaw deals targetDate
      = ForecastUtils.pipelineRaw deals targetDate + ForecastUtils.realizedRevenue deals targetDate
  have hpart : ForecastUtils.committedRaw deals targetDate
      + ForecastUtils.uncommittedRaw deals targetDate
      = ForecastUtils.pipelineRaw deals targetDate := by
    unfold ForecastUtils.committedRaw ForecastUtils.uncommittedRaw ForecastUtils.pipelineRaw
    rw [← sum_map_add]
    refine congrArg List.sum (List.map_congr_left ?_)
    intro d _
    by_cases h : d.confidence = "HIGH" <;> simp [h]
  linarith

/-- Claim C8: the degenerate inputs take the documented defaults —
hygieneScore and freshnessScore are 100 with no active deals, winRate is 0
with no closed deals, mape is 0 for empty history. -/
theorem defaults_on_empty (deals : List Deal) (targetDate : ℤ)
    (history : List HistoricalRevenue) (now : ℤ) :
    (ForecastUtils.activeDeals deals = [] →
      (ForecastUtils.calculateForecast deals targetDate history now).hygieneScore = 100
      ∧ (ForecastUtils.calculateForecast deals targetDate history now).freshnessScore = 100)
    ∧ ((ForecastUtils.wonDeals deals).length + (ForecastUtils.lostDeals deals).length = 0 →
      (ForecastUtils.calculateForecast deals targetDate history now).winRate = 0)
    ∧ (history = [] →
      (ForecastUtils.calculateForecast deals targetDate history now).mape = JsNum.num 0) := by
  refine ⟨fun hact => ?_, fun hclosed => ?_, fun hhist => ?_⟩
  · constructor
    · show ForecastUtils.hygieneScore deals = 100
      simp [ForecastUtils.hygieneScore, hact]
    · show ForecastUtils.freshnessScore deals now = 100
      simp [ForecastUtils.freshnessScore, hact]
  · show ForecastUtils.winRate deals = 0
    simp [ForecastUtils.winRate, hclosed]
  · show ForecastUtils.mape history = JsNum.num 0
    simp [ForecastUtils.mape, hhist]

/-- Witness for C8 at a concrete degenerate input. -/
theorem defaults_on_empty_witness :
    (ForecastUtils.calculateForecast [] 0 [] 0).hygieneScore = 100
    ∧ (ForecastUtils.calculateForecast [] 0 [] 0).winRate = 0
    ∧ (ForecastUtils.calculateForecast [] 0 [] 0).mape = JsNum.num 0 :=
  ⟨((defaults_on_empty [] 0 [] 0).1 rfl).1,
   (defaults_on_empty [] 0 [] 0).2.1 rfl,
   (defaults_on_empty [] 0 [] 0).2.2 rfl⟩

/-- Claim C7: a deal is stale exactly when the whole-day difference between
`now` and its last activity exceeds 7; at exactly 7 days before `now` it is
not stale, at 8 days it is. -/
theorem stale_strictly_after_seven_days (d : Deal) (now : ℤ) :
    (ForecastUtils.isDealStale d now = true
      ↔ 7 < differenceInDays now d.lastActivityDate)
    ∧ (d.lastActivityDate = now - 7 * msPerDay → ForecastUtils.isDealStale d now = false)
    ∧ (d.lastActivityDate = now - 8 * msPerDay → ForecastUtils.isDealStale d now = true) := by
  refine ⟨by simp [ForecastUtils.isDealStale, ForecastUtils.STALE_THRESHOLD_DAYS], ?_, ?_⟩
  · intro h7
    have : differenceInDays now d.lastActivityDate = 7 := by
      rw [h7]
      show (now - (now - 7 * msPerDay)).tdiv msPerDay = 7
      have : now - (now - 7 * msPerDay) = 7 * msPerDay := by ring
      rw [this]
      decide
    simp [ForecastUtils.isDealStale, this, ForecastUtils.STALE_THRESHOLD_DAYS]
  · intro h8
    have : differenceInDays now d.lastActivityDate = 8 := by
      rw [h8]
      show (now - (now - 8 * msPerDay)).tdiv msPerDay = 8
      have : now - (now - 8 * msPerDay) = 8 * msPerDay := by ring
      rw [this]
      decide
    simp [ForecastUtils.isDealStale, this, ForecastUtils.STALE_THRESHOLD_DAYS]

/-- Witness for C7 at concrete dates: last activity exactly 7 days ago is
not stale, 8 days ago is stale. -/
theorem stale_strictly_after_seven_days_witness :
    ForecastUtils.isDealStale (mkDeal "LEAD" "LOW" 1000 0 (-604800000) 0) 0 = false
    ∧ ForecastUtils.isDealStale (mkDeal "LEAD" "LOW" 1000 0 (-691200000) 0) 0 = true :=
  ⟨(stale_strictly_after_seven_days (mkDeal "LEAD" "LOW" 1000 0 (-604800000) 0) 0).2.1
      (by decide),
   (stale_strictly_after_seven_days (mkDeal "LEAD" "LOW" 1000 0 (-691200000) 0) 0).2.2
      (by decide)⟩

/-- Claim C5 (amended): with the ambient clock reading `now` counted among
the inputs, identical inputs give identical outputs — `calculateForecast`
and `isDealStale` are deterministic functions of (deals, targetDate,
history, now) and of (deal, now) respectively. -/
theorem engine_deterministic (deals₁ deals₂ : List Deal) (t₁ t₂ : ℤ)
    (hist₁ hist₂ : List HistoricalRevenue) (now₁ now₂ : ℤ) (d₁ d₂ : Deal)
    (hdeals : deals₁ = deals₂) (ht : t₁ = t₂) (hhist : hist₁ = hist₂)
    (hnow : now₁ = now₂) (hd : d₁ = d₂) :
    ForecastUtils.calculateForecast deals₁ t₁ hist₁ now₁
      = ForecastUtils.calculateForecast deals₂ t₂ hist₂ now₂
    ∧ ForecastUtils.isDealStale d₁ now₁ = ForecastUtils.isDealStale d₂ now₂ := by
  subst hdeals; subst ht; subst hhist; subst hnow; subst hd
  exact ⟨rfl, rfl⟩

/-- Witness for C5 (amended) at concrete inputs. -/
theorem engine_deterministic_witness :
    ForecastUtils.calculateForecast [] 0 [] 0 = ForecastUtils.calculateForecast [] 0 [] 0
    ∧ ForecastUtils.isDealStale (mkDeal "LEAD" "LOW" 1 0 0 0) 0
      = ForecastUtils.isDealStale (mkDeal "LEAD" "LOW" 1 0 0 0) 0 :=
  engine_deterministic [] [] 0 0 [] [] 0 0 (mkDeal "LEAD" "LOW" 1 0 0 0)
    (mkDeal "LEAD" "LOW" 1 0 0 0) rfl rfl rfl rfl rfl

/-- Counterexample for C5 as stated: with every parameter of the source
signature `calculateForecast(deals, targetDate, history)` held fixed, the
output still changes when only the ambient clock reading changes — `now` is
clock state read inside the computation (line 49 of the source), not an
injectable input. -/
theorem calculateForecast_reads_ambient_clock :
    (ForecastUtils.calculateForecast [mkDeal "LEAD" "LOW" 1000 0 0 0] 0 [] 0).freshnessScore
      ≠ (ForecastUtils.calculateForecast [mkDeal "LEAD" "LOW" 1000 0 0 0] 0 []
          (30 * msPerDay)).freshnessScore := by
  show ForecastUtils.freshnessScore [mkDeal "LEAD" "LOW" 1000 0 0 0] 0
      ≠ ForecastUtils.freshnessScore [mkDeal "LEAD" "LOW" 1000 0 0 0] (30 * msPerDay)
  have h1 : ForecastUtils.activeDeals [mkDeal "LEAD" "LOW" 1000 0 0 0]
      = [mkDeal "LEAD" "LOW" 1000 0 0 0] := by decide
  have hf1 : ForecastUtils.isFresh 0 (mkDeal "LEAD" "LOW" 1000 0 0 0) = true := by decide
  have hf2 : ForecastUtils.isFresh (30 * msPerDay) (mkDeal "LEAD" "LOW" 1000 0 0 0)
      = false := by decide
  rw [ForecastUtils.freshnessScore, ForecastUtils.freshnessScore, h1]
  simp only [List.filter_cons, List.filter_nil, hf1, hf2, if_true, if_false,
    List.length_cons, List.length_nil]
  norm_num

/-- Claim C3 (divergence): `momGrowth` is not the sentinel 0 when the
previous month's actual is 0 — the source divides without the
`prevMonth.actual ≠ 0` guard, and the result is the non-finite JavaScript
value `Infinity`. -/
theorem momGrowth_zero_prev_not_sentinel :
    (ForecastUtils.calculateForecast [] 0
        [⟨"2025-01", 0, 0⟩, ⟨"2025-02", 0, 100⟩] 0).momGrowth = JsNum.posInf := by
  show ForecastUtils.momGrowth [⟨"2025-01", 0, 0⟩, ⟨"2025-02", 0, 100⟩] = JsNum.posInf
  rw [ForecastUtils.momGrowth]
  norm_num [jsDiv, jsMulNum]

theorem mem_of_mem_dealsInTargetMonth {d : Deal} {deals : List Deal} {targetDate : ℤ}
    (h : d ∈ ForecastUtils.dealsInTargetMonth deals targetDate) : d ∈ deals :=
  (List.mem_filter.mp (List.mem_filter.mp h).1).1

/-- Claim C4: with the data-model invariant `amount ≥ 0`, the returned
metrics always satisfy `conservative ≤ base` and `base ≤ optimistic`. -/
theorem forecast_ordering_invariant (deals : List Deal) (targetDate : ℤ)
    (history : List HistoricalRevenue) (now : ℤ)
    (hpos : ∀ d ∈ deals, 0 ≤ d.amount) :
    (ForecastUtils.calculateForecast deals targetDate history now).conservative
      ≤ (ForecastUtils.calculateForecast deals targetDate history now).base
    ∧ (ForecastUtils.calculateForecast deals targetDate history now).base
      ≤ (ForecastUtils.calculateForecast deals targetDate history now).optimistic := by
  constructor
  · show ForecastUtils.conservativeRaw deals targetDate now
        + ForecastUtils.realizedRevenue deals targetDate
      ≤ ForecastUtils.baseRaw deals targetDate now
        + ForecastUtils.realizedRevenue deals targetDate
    have h : ForecastUtils.conservativeRaw deals targetDate now
        ≤ ForecastUtils.baseRaw deals targetDate now := by
      unfold ForecastUtils.conservativeRaw ForecastUtils.baseRaw
      apply List.sum_le_sum
      intro d hdmem
      have hd0 : 0 ≤ d.amount := hpos d (mem_of_mem_dealsInTargetMonth hdmem)
      by_cases hc : d.confidence = "HIGH" ∧ ForecastUtils.daysToNextStep now d ≤ 14
          ∧ ForecastUtils.daysSinceActivity now d ≤ ForecastUtils.STALE_THRESHOLD_DAYS
      · rw [if_pos hc, if_pos ⟨Or.inl hc.1, by
          have := hc.2.1
          unfold ForecastUtils.STALE_THRESHOLD_DAYS at *
          omega⟩]
      · rw [if_neg hc]
        by_cases hb : ForecastUtils.inBase now d
        · rw [if_pos hb]; exact hd0
        · rw [if_neg hb]
    linarith
  · show ForecastUtils.baseRaw deals targetDate now
        + ForecastUtils.realizedRevenue deals targetDate
      ≤ ForecastUtils.baseRaw deals targetDate now
        + ForecastUtils.realizedRevenue deals targetDate
        + ForecastUtils.optimisticDelta deals targetDate now
    have h : 0 ≤ ForecastUtils.optimisticDelta deals targetDate now := by
      unfold ForecastUtils.optimisticDelta
      apply List.sum_nonneg
      intro x hx
      obtain ⟨d, hdmem, rfl⟩ := List.mem_map.mp hx
      have hd0 : 0 ≤ d.amount := hpos d (mem_of_mem_dealsInTargetMonth hdmem)
      by_cases hc : ¬ ForecastUtils.inBase now d
          ∧ (d.confidence = "LOW" ∨ (100000 < d.amount ∧ d.stage = "DISCOVERY"))
      · rw [if_pos hc]; exact hd0
      · rw [if_neg hc]
    linarith

/-- Witness for C4 at a concrete input with nonnegative amounts. -/
theorem forecast_ordering_invariant_witness :
    (ForecastUtils.calculateForecast [mkDeal "LEAD" "HIGH" 100000 0 0 0] 0 [] 0).conservative
      ≤ (ForecastUtils.calculateForecast [mkDeal "LEAD" "HIGH" 100000 0 0 0] 0 [] 0).base
    ∧ (ForecastUtils.calculateForecast [mkDeal "LEAD" "HIGH" 100000 0 0 0] 0 [] 0).base
      ≤ (ForecastUtils.calculateForecast [mkDeal "LEAD" "HIGH" 100000 0 0 0] 0 [] 0).optimistic :=
  forecast_ordering_invariant [mkDeal "LEAD" "HIGH" 100000 0 0 0] 0 [] 0 (by decide)

/-- Claim C9: under the canonical 5-stage enum no deal matches the
`"CLOSED_WON"` / `"CLOSED_LOST"` filters, so every deal counts as active
(entering the hygiene/freshness denominators and the target-month forecast
partition) and `closedWon` and `winRate` are always 0. -/
theorem canonical_stages_never_closed (deals : List Deal) (targetDate : ℤ)
    (history : List HistoricalRevenue) (now : ℤ)
    (hcanon : ∀ d ∈ deals, d.stage ∈ canonicalStages) :
    ForecastUtils.activeDeals deals = deals
    ∧ ForecastUtils.wonDeals deals = []
    ∧ ForecastUtils.lostDeals deals = []
    ∧ ForecastUtils.dealsInTargetMonth deals targetDate
        = deals.filter (fun d => isSameMonth d.closeDate targetDate)
    ∧ (ForecastUtils.calculateForecast deals targetDate history now).closedWon = 0
    ∧ (ForecastUtils.calculateForecast deals targetDate history now).winRate = 0 := by
  have hact : ForecastUtils.activeDeals deals = deals := by
    unfold ForecastUtils.activeDeals
    refine List.filter_eq_self.mpr (fun d hd => ?_)
    have hmem := hcanon d hd
    simp only [canonicalStages, List.mem_cons, List.not_mem_nil, or_false] at hmem
    rcases hmem with h | h | h | h | h <;> simp only [h] <;> decide
  have hwon : ForecastUtils.wonDeals deals = [] := by
    unfold ForecastUtils.wonDeals
    refine List.filter_eq_nil_iff.mpr (fun d hd => ?_)
    have hmem := hcanon d hd
    simp only [canonicalStages, List.mem_cons, List.not_mem_nil, or_false] at hmem
    rcases hmem with h | h | h | h | h <;> simp only [h] <;> decide
  have hlost : ForecastUtils.lostDeals deals = [] := by
    unfold ForecastUtils.lostDeals
    refine List.filter_eq_nil_iff.mpr (fun d hd => ?_)
    have hmem := hcanon d hd
    simp only [canonicalStages, List.mem_cons, List.not_mem_nil, or_false] at hmem
    rcases hmem with h | h | h | h | h <;> simp only [h] <;> decide
  refine ⟨hact, hwon, hlost, ?_, ?_, ?_⟩
  · rw [ForecastUtils.dealsInTargetMonth, hact]
  · show ForecastUtils.realizedRevenue deals targetDate = 0
    rw [ForecastUtils.realizedRevenue, ForecastUtils.wonInTargetMonth, hwon]
    rfl
  · show ForecastUtils.winRate deals = 0
    simp [ForecastUtils.winRate, hwon, hlost]

/-- Witness for C9 at a concrete input holding WON and LOST deals. -/
theorem canonical_stages_never_closed_witness :
    ForecastUtils.activeDeals [mkDeal "WON" "HIGH" 100 0 0 0, mkDeal "LOST" "LOW" 50 0 0 0]
      = [mkDeal "WON" "HIGH" 100 0 0 0, mkDeal "LOST" "LOW" 50 0 0 0]
    ∧ (ForecastUtils.calculateForecast
        [mkDeal "WON" "HIGH" 100 0 0 0, mkDeal "LOST" "LOW" 50 0 0 0] 0 [] 0).closedWon = 0
    ∧ (ForecastUtils.calculateForecast
        [mkDeal "WON" "HIGH" 100 0 0 0, mkDeal "LOST" "LOW" 50 0 0 0] 0 [] 0).winRate = 0 :=
  ⟨(canonical_stages_never_closed
      [mkDeal "WON" "HIGH" 100 0 0 0, mkDeal "LOST" "LOW" 50 0 0 0] 0 [] 0 (by decide)).1,
   (canonical_stages_never_closed
      [mkDeal "WON" "HIGH" 100 0 0 0, mkDeal "LOST" "LOW" 50 0 0 0] 0 [] 0 (by decide)).2.2.2.2.1,
   (canonical_stages_never_closed
      [mkDeal "WON" "HIGH" 100 0 0 0, mkDeal "LOST" "LOW" 50 0 0 0] 0 [] 0 (by decide)).2.2.2.2.2⟩

/-! ## Claims about the canonical stage-direct engine (spec-modelled) -/

theorem specmodel_month_cons_active {d : Deal} {deals : List Deal} {t : ℤ}
    (hw : d.stage ≠ "WON") (hl : d.stage ≠ "LOST")
    (hm : isSameMonth d.closeDate t = true) :
    SpecModel.dealsInTargetMonth (d :: deals) t = d :: SpecModel.dealsInTargetMonth deals t := by
  unfold SpecModel.dealsInTargetMonth
  rw [List.filter_cons]
  simp [hw, hl, hm]

theorem specmodel_month_cons_won {d : Deal} {deals : List Deal} {t : ℤ}
    (hw : d.stage = "WON") :
    SpecModel.dealsInTargetMonth (d :: deals) t = SpecModel.dealsInTargetMonth deals t := by
  unfold SpecModel.dealsInTargetMonth
  rw [List.filter_cons]
  simp [hw]

theorem specmodel_won_cons_of_ne {d : Deal} {deals : List Deal} {t : ℤ}
    (hw : d.stage ≠ "WON") :
    SpecModel.wonInTargetMonth (d :: deals) t = SpecModel.wonInTargetMonth deals t := by
  unfold SpecModel.wonInTargetMonth
  rw [List.filter_cons]
  simp [hw]

theorem specmodel_won_cons_won {d : Deal} {deals : List Deal} {t : ℤ}
    (hw : d.stage = "WON") (hm : isSameMonth d.closeDate t = true) :
    SpecModel.wonInTargetMonth (d :: deals) t = d :: SpecModel.wonInTargetMonth deals t := by
  unfold SpecModel.wonInTargetMonth
  rw [List.filter_cons]
  simp [hw, hm]

theorem specmodel_sum_month_cons_active {d : Deal} {deals : List Deal} {t : ℤ}
    (g : Deal → ℚ) (hw : d.stage ≠ "WON") (hl : d.stage ≠ "LOST")
    (hm : isSameMonth d.closeDate t = true) :
    ((SpecModel.dealsInTargetMonth (d :: deals) t).map g).sum
      = g d + ((SpecModel.dealsInTargetMonth deals t).map g).sum := by
  rw [specmodel_month_cons_active hw hl hm, List.map_cons, List.sum_cons]

/-- Claim C1: in the canonical stage-direct engine, an active deal of the
target month contributes by its stage alone — COMMITTED adds its amount to
committedValue and base (and to conservative when HIGH-confidence),
UNCOMMITTED adds to uncommittedValue and to the optimistic delta, and LEAD
adds to leadsValue only, reaching none of conservative, base, optimistic. -/
theorem stage_direct_bucketing (deals : List Deal) (d : Deal) (t : ℤ)
    (hw : d.stage ≠ "WON") (hl : d.stage ≠ "LOST")
    (hm : isSameMonth d.closeDate t = true) :
    (d.stage = "COMMITTED" →
      (SpecModel.computeForecast (d :: deals) t).committedValue
        = (SpecModel.computeForecast deals t).committedValue + d.amount
      ∧ (SpecModel.computeForecast (d :: deals) t).base
        = (SpecModel.computeForecast deals t).base + d.amount
      ∧ (SpecModel.computeForecast (d :: deals) t).conservative
        = (SpecModel.computeForecast deals t).conservative
          + (if d.confidence = "HIGH" then d.amount else 0)
      ∧ (SpecModel.computeForecast (d :: deals) t).uncommittedValue
        = (SpecModel.computeForecast deals t).uncommittedValue
      ∧ (SpecModel.computeForecast (d :: deals) t).leadsValue
        = (SpecModel.computeForecast deals t).leadsValue)
    ∧ (d.stage = "UNCOMMITTED" →
      (SpecModel.computeForecast (d :: deals) t).uncommittedValue
        = (SpecModel.computeForecast deals t).uncommittedValue + d.amount
      ∧ (SpecModel.computeForecast (d :: deals) t).optimistic
        = (SpecModel.computeForecast deals t).optimistic + d.amount
      ∧ (SpecModel.computeForecast (d :: deals) t).committedValue
        = (SpecModel.computeForecast deals t).committedValue
      ∧ (SpecModel.computeForecast (d :: deals) t).conservative
        = (SpecModel.computeForecast deals t).conservative
      ∧ (SpecModel.computeForecast (d :: deals) t).base
        = (SpecModel.computeForecast deals t).base
      ∧ (SpecModel.computeForecast (d :: deals) t).leadsValue
        = (SpecModel.computeForecast deals t).leadsValue)
    ∧ (d.stage = "LEAD" →
      (SpecModel.computeForecast (d :: deals) t).leadsValue
        = (SpecModel.computeForecast deals t).leadsValue + d.amount
      ∧ (SpecModel.computeForecast (d :: deals) t).conservative
        = (SpecModel.computeForecast deals t).conservative
      ∧ (SpecModel.computeForecast (d :: deals) t).base
        = (SpecModel.computeForecast deals t).base
      ∧ (SpecModel.computeForecast (d :: deals) t).optimistic
        = (SpecModel.computeForecast deals t).optimistic
      ∧ (SpecModel.computeForecast (d :: deals) t).committedValue
        = (SpecModel.computeForecast deals t).committedValue
      ∧ (SpecModel.computeForecast (d :: deals) t).uncommittedValue
        = (SpecModel.computeForecast deals t).uncommittedValue) := by
  have hreal : SpecModel.realizedRevenue (d :: deals) t = SpecModel.realizedRevenue deals t := by
    unfold SpecModel.realizedRevenue
    rw [specmodel_won_cons_of_ne hw]
  have hcom : SpecModel.committedRaw (d :: deals) t
      = (if d.stage = "COMMITTED" then d.amount else 0) + SpecModel.committedRaw deals t := by
    unfold SpecModel.committedRaw
    exact specmodel_sum_month_cons_active _ hw hl hm
  have hbase : SpecModel.baseRaw (d :: deals) t
      = (if d.stage = "COMMITTED" then d.amount else 0) + SpecModel.baseRaw deals t := by
    unfold SpecModel.baseRaw
    exact specmodel_sum_month_cons_active _ hw hl hm
  have hcons : SpecModel.conservativeRaw (d :: deals) t
      = (if d.stage = "COMMITTED" ∧ d.confidence = "HIGH" then d.amount else 0)
        + SpecModel.conservativeRaw deals t := by
    unfold SpecModel.conservativeRaw
    exact specmodel_sum_month_cons_active _ hw hl hm
  have hunc : SpecModel.uncommittedRaw (d :: deals) t
      = (if d.stage = "UNCOMMITTED" then d.amount else 0) + SpecModel.uncommittedRaw deals t := by
    unfold SpecModel.uncommittedRaw
    exact specmodel_sum_month_cons_active _ hw hl hm
  have hdelta : SpecModel.optimisticDelta (d :: deals) t
      = (if d.stage = "UNCOMMITTED" then d.amount else 0) + SpecModel.optimisticDelta deals t := by
    unfold SpecModel.optimisticDelta
    exact specmodel_sum_month_cons_active _ hw hl hm
  have hleads : SpecModel.leadsRaw (d :: deals) t
      = (if d.stage = "LEAD" then d.amount else 0) + SpecModel.leadsRaw deals t := by
    unfold SpecModel.leadsRaw
    exact specmodel_sum_month_cons_active _ hw hl hm
  refine ⟨fun hst => ?_, fun hst => ?_, fun hst => ?_⟩
  · refine ⟨?_, ?_, ?_, ?_, ?_⟩
    · show SpecModel.committedRaw (d :: deals) t + SpecModel.realizedRevenue (d :: deals) t = _
      rw [hcom, hreal, if_pos hst]
      show _ = SpecModel.committedRaw deals t + SpecModel.realizedRevenue deals t + d.amount
      ring
    · show SpecModel.baseRaw (d :: deals) t + SpecModel.realizedRevenue (d :: deals) t = _
      rw [hbase, hreal, if_pos hst]
      show _ = SpecModel.baseRaw deals t + SpecModel.realizedRevenue deals t + d.amount
      ring
    · show SpecModel.conservativeRaw (d :: deals) t + SpecModel.realizedRevenue (d :: deals) t = _
      rw [hcons, hreal]
      show _ = SpecModel.conservativeRaw deals t + SpecModel.realizedRevenue deals t
        + (if d.confidence = "HIGH" then d.amount else 0)
      by_cases hh : d.confidence = "HIGH"
      · rw [if_pos ⟨hst, hh⟩, if_pos hh]; ring
      · rw [if_neg (fun hcontra => hh hcontra.2), if_neg hh]; ring
    · show SpecModel.uncommittedRaw (d :: deals) t = SpecModel.uncommittedRaw deals t
      rw [hunc, hst]
      rw [if_neg (by decide)]
      ring
    · show SpecModel.leadsRaw (d :: deals) t = SpecModel.leadsRaw deals t
      rw [hleads, hst, if_neg (by decide)]
      ring
  · refine ⟨?_, ?_, ?_, ?_, ?_, ?_⟩
    · show SpecModel.uncommittedRaw (d :: deals) t = SpecModel.uncommittedRaw deals t + d.amount
      rw [hunc, if_pos hst]; ring
    · show SpecModel.baseRaw (d :: deals) t + SpecModel.realizedRevenue (d :: deals) t
          + SpecModel.optimisticDelta (d :: deals) t = _
      rw [hbase, hreal, hdelta, hst, if_neg (by decide), if_pos rfl]
      show _ = SpecModel.baseRaw deals t + SpecModel.realizedRevenue deals t
        + SpecModel.optimisticDelta deals t + d.amount
      ring
    · show SpecModel.committedRaw (d :: deals) t + SpecModel.realizedRevenue (d :: deals) t = _
      rw [hcom, hreal, hst, if_neg (by decide)]
      show _ = SpecModel.committedRaw deals t + SpecModel.realizedRevenue deals t
      ring
    · show SpecModel.conservativeRaw (d :: deals) t + SpecModel.realizedRevenue (d :: deals) t = _
      rw [hcons, hreal, if_neg (fun hcontra => by
        rw [hst] at hcontra
        exact absurd hcontra.1 (by decide))]
      show _ = SpecModel.conservativeRaw deals t + SpecModel.realizedRevenue deals t
      ring
    · show SpecModel.baseRaw (d :: deals) t + SpecModel.realizedRevenue (d :: deals) t = _
      rw [hbase, hreal, hst, if_neg (by decide)]
      show _ = SpecModel.baseRaw deals t + SpecModel.realizedRevenue deals t
      ring
    · show SpecModel.leadsRaw (d :: deals) t = SpecModel.leadsRaw deals t
      rw [hleads, hst, if_neg (by decide)]
      ring
  · refine ⟨?_, ?_, ?_, ?_, ?_, ?_⟩
    · show SpecModel.leadsRaw (d :: deals) t = SpecModel.leadsRaw deals t + d.amount
      rw [hleads, if_pos hst]; ring
    · show SpecModel.conservativeRaw (d :: deals) t + SpecModel.realizedRevenue (d :: deals) t = _
      rw [hcons, hreal, if_neg (fun hcontra => by
        rw [hst] at hcontra
        exact absurd hcontra.1 (by decide))]
      show _ = SpecModel.conservativeRaw deals t + SpecModel.realizedRevenue deals t
      ring
    · show SpecModel.baseRaw (d :: deals) t + SpecModel.realizedRevenue (d :: deals) t = _
      rw [hbase, hreal, hst, if_neg (by decide)]
      show _ = SpecModel.baseRaw deals t + SpecModel.realizedRevenue deals t
      ring
    · show SpecModel.baseRaw (d :: deals) t + SpecModel.realizedRevenue (d :: deals) t
          + SpecModel.optimisticDelta (d :: deals) t = _
      rw [hbase, hreal, hdelta, hst, if_neg (by decide), if_neg (by decide)]
      show _ = SpecModel.baseRaw deals t + SpecModel.realizedRevenue deals t
        + SpecModel.optimisticDelta deals t
      ring
    · show SpecModel.committedRaw (d :: deals) t + SpecModel.realizedRevenue (d :: deals) t = _
      rw [hcom, hreal, hst, if_neg (by decide)]
      show _ = SpecModel.committedRaw deals t + SpecModel.realizedRevenue deals t
      ring
    · show SpecModel.uncommittedRaw (d :: deals) t = SpecModel.uncommittedRaw deals t
      rw [hunc, hst, if_neg (by decide)]
      ring

/-- Witness for C1: a COMMITTED HIGH-confidence deal closing in the target
month adds its amount to committedValue. -/
theorem stage_direct_bucketing_witness :
    (SpecModel.computeForecast [mkDeal "COMMITTED" "HIGH" 100000 0 0 0] 0).committedValue
      = (SpecModel.computeForecast [] 0).committedValue + 100000 :=
  ((stage_direct_bucketing [] (mkDeal "COMMITTED" "HIGH" 100000 0 0 0) 0
      (by decide) (by decide) (by decide)).1 rfl).1

/-- Claim C2: `closedWon` equals the realized revenue — the summed amounts
of WON deals closing in the target month — and that realized revenue is
added on top of the raw sums in the returned conservative, base,
pipelineValue and committedValue, while uncommittedValue stays raw; adding
a WON deal of the month raises exactly those five outputs by its amount. -/
theorem closedWon_realized_fold (deals : List Deal) (t : ℤ) :
    (SpecModel.computeForecast deals t).closedWon
      = ((deals.filter (fun d => d.stage == "WON" && isSameMonth d.closeDate t)).map
          (fun d => d.amount)).sum
    ∧ (SpecModel.computeForecast deals t).conservative
      = SpecModel.conservativeRaw deals t + (SpecModel.computeForecast deals t).closedWon
    ∧ (SpecModel.computeForecast deals t).base
      = SpecModel.baseRaw deals t + (SpecModel.computeForecast deals t).closedWon
    ∧ (SpecModel.computeForecast deals t).pipelineValue
      = SpecModel.pipelineRaw deals t + (SpecModel.computeForecast deals t).closedWon
    ∧ (SpecModel.computeForecast deals t).committedValue
      = SpecModel.committedRaw deals t + (SpecModel.computeForecast deals t).closedWon
    ∧ (SpecModel.computeForecast deals t).uncommittedValue = SpecModel.uncommittedRaw deals t
    ∧ (∀ d : Deal, d.stage = "WON" → isSameMonth d.closeDate t = true →
      (SpecModel.computeForecast (d :: deals) t).closedWon
        = (SpecModel.computeForecast deals t).closedWon + d.amount
      ∧ (SpecModel.computeForecast (d :: deals) t).conservative
        = (SpecModel.computeForecast deals t).conservative + d.amount
      ∧ (SpecModel.computeForecast (d :: deals) t).base
        = (SpecModel.computeForecast deals t).base + d.amount
      ∧ (SpecModel.computeForecast (d :: deals) t).pipelineValue
        = (SpecModel.computeForecast deals t).pipelineValue + d.amount
      ∧ (SpecModel.computeForecast (d :: deals) t).committedValue
        = (SpecModel.computeForecast deals t).committedValue + d.amount
      ∧ (SpecModel.computeForecast (d :: deals) t).uncommittedValue
        = (SpecModel.computeForecast deals t).uncommittedValue
      ∧ (SpecModel.computeForecast (d :: deals) t).leadsValue
        = (SpecModel.computeForecast deals t).leadsValue) := by
  refine ⟨rfl, ?_, rfl, rfl, rfl, rfl, ?_⟩
  · show SpecModel.conservativeRaw deals t + SpecModel.realizedRevenue deals t = _
    rfl
  intro d hst hm
  have hreal : SpecModel.realizedRevenue (d :: deals) t
      = d.amount + SpecModel.realizedRevenue deals t := by
    unfold SpecModel.realizedRevenue
    rw [specmodel_won_cons_won hst hm, List.map_cons, List.sum_cons]
  have hmonth : SpecModel.dealsInTargetMonth (d :: deals) t
      = SpecModel.dealsInTargetMonth deals t := specmodel_month_cons_won hst
  have hcom : SpecModel.committedRaw (d :: deals) t = SpecModel.committedRaw deals t := by
    unfold SpecModel.committedRaw; rw [hmonth]
  have hbase : SpecModel.baseRaw (d :: deals) t = SpecModel.baseRaw deals t := by
    unfold SpecModel.baseRaw; rw [hmonth]
  have hcons : SpecModel.conservativeRaw (d :: deals) t
      = SpecModel.conservativeRaw deals t := by
    unfold SpecModel.conservativeRaw; rw [hmonth]
  have hpipe : SpecModel.pipelineRaw (d :: deals) t = SpecModel.pipelineRaw deals t := by
    unfold SpecModel.pipelineRaw; rw [hmonth]
  have hunc : SpecModel.uncommittedRaw (d :: deals) t = SpecModel.uncommittedRaw deals t := by
    unfold SpecModel.uncommittedRaw; rw [hmonth]
  have hleads : SpecModel.leadsRaw (d :: deals) t = SpecModel.leadsRaw deals t := by
    unfold SpecModel.leadsRaw; rw [hmonth]
  refine ⟨?_, ?_, ?_, ?_, ?_, ?_, ?_⟩
  · show SpecModel.realizedRevenue (d :: deals) t = SpecModel.realizedRevenue deals t + d.amount
    rw [hreal]; ring
  · show SpecModel.conservativeRaw (d :: deals) t + SpecModel.realizedRevenue (d :: deals) t
        = SpecModel.conservativeRaw deals t + SpecModel.realizedRevenue deals t + d.amount
    rw [hcons, hreal]; ring
  · show SpecModel.baseRaw (d :: deals) t + SpecModel.realizedRevenue (d :: deals) t
        = SpecModel.baseRaw deals t + SpecModel.realizedRevenue deals t + d.amount
    rw [hbase, hreal]; ring
  · show SpecModel.pipelineRaw (d :: deals) t + SpecModel.realizedRevenue (d :: deals) t
        = SpecModel.pipelineRaw deals t + SpecModel.realizedRevenue deals t + d.amount
    rw [hpipe, hreal]; ring
  · show SpecModel.committedRaw (d :: deals) t + SpecModel.realizedRevenue (d :: deals) t
        = SpecModel.committedRaw deals t + SpecModel.realizedRevenue deals t + d.amount
    rw [hcom, hreal]; ring
  · exact hunc
  · exact hleads

/-- Witness for C2: adding a WON deal of the target month raises closedWon
and committedValue by its amount and leaves uncommittedValue unchanged. -/
theorem closedWon_realized_fold_witness :
    (SpecModel.computeForecast [mkDeal "WON" "HIGH" 50000 0 0 0] 0).closedWon
      = (SpecModel.computeForecast [] 0).closedWon + 50000
    ∧ (SpecModel.computeForecast [mkDeal "WON" "HIGH" 50000 0 0 0] 0).committedValue
      = (SpecModel.computeForecast [] 0).committedValue + 50000
    ∧ (SpecModel.computeForecast [mkDeal "WON" "HIGH" 50000 0 0 0] 0).uncommittedValue
      = (SpecModel.computeForecast [] 0).uncommittedValue :=
  ⟨((closedWon_realized_fold [] 0).2.2.2.2.2.2 (mkDeal "WON" "HIGH" 50000 0 0 0)
      rfl (by decide)).1,
   ((closedWon_realized_fold [] 0).2.2.2.2.2.2 (mkDeal "WON" "HIGH" 50000 0 0 0)
      rfl (by decide)).2.2.2.2.1,
   ((closedWon_realized_fold [] 0).2.2.2.2.2.2 (mkDeal "WON" "HIGH" 50000 0 0 0)
      rfl (by decide)).2.2.2.2.2.1⟩

theorem mergeSort_amounts (deals : List Deal) :
    (deals.mergeSort (fun a b => decide (b.amount ≤ a.amount))).map (fun d => d.amount)
      = (deals.map (fun d => d.amount)).mergeSort (fun a b => decide (b ≤ a)) := by
  apply List.eq_of_perm_of_sorted (r := fun a b : ℚ => b ≤ a)
  · exact ((deals.mergeSort_perm _).map _).trans
      ((deals.map (fun d => d.amount)).mergeSort_perm _).symm
  · have h1 : List.Pairwise (fun a b : Deal => (decide (b.amount ≤ a.amount)) = true)
        (deals.mergeSort (fun a b => decide (b.amount ≤ a.amount))) := by
      apply List.sorted_mergeSort
      · intro a b c hab hbc
        exact decide_eq_true (le_trans (of_decide_eq_true hbc) (of_decide_eq_true hab))
      · intro a b
        rcases le_total b.amount a.amount with h | h <;> simp [h]
    exact h1.map _ (fun a b hab => of_decide_eq_true hab)
  · have h2 : List.Pairwise (fun a b : ℚ => (decide (b ≤ a)) = true)
        ((deals.map (fun d => d.amount)).mergeSort (fun a b => decide (b ≤ a))) := by
      apply List.sorted_mergeSort
      · intro a b c hab hbc
        exact decide_eq_true (le_trans (of_decide_eq_true hbc) (of_decide_eq_true hab))
      · intro a b
        rcases le_total b a with h | h <;> simp [h]
    exact List.Pairwise.imp (fun hab => of_decide_eq_true hab) h2

theorem head_add_second_eq_sum_take_two (l : List ℚ) :
    l.head?.getD 0 + ((l.drop 1).head?.getD 0) = (l.take 2).sum := by
  rcases l with _ | ⟨a, _ | ⟨b, rest⟩⟩ <;> simp

/-- Claim C6: `getConcentrationRisk` is false whenever `totalValue = 0`
(also on non-empty deal lists), and otherwise reports risk exactly when the
sum of the two largest amounts (missing second amount counting 0) divided
by `totalValue` strictly exceeds 0.30. -/
theorem concentration_risk_top2_over_total (deals : List Deal) (total : ℚ) :
    (total = 0 → ForecastUtils.getConcentrationRisk deals total = false)
    ∧ (total ≠ 0 →
      (ForecastUtils.getConcentrationRisk deals total = true
        ↔ 3 / 10 < top2Sum deals / total)) := by
  constructor
  · intro h
    simp [ForecastUtils.getConcentrationRisk, h]
  · intro h
    have htop : ((deals.mergeSort (fun a b => decide (b.amount ≤ a.amount))).head?.map
          (fun d => d.amount)).getD 0
        + (((deals.mergeSort (fun a b => decide (b.amount ≤ a.amount))).drop 1).head?.map
          (fun d => d.amount)).getD 0
        = top2Sum deals := by
      rw [← List.head?_map, ← List.head?_map, List.map_drop, mergeSort_amounts]
      exact head_add_second_eq_sum_take_two _
    rw [ForecastUtils.getConcentrationRisk, if_neg h]
    show (decide (3 / 10 < _ / total)) = true ↔ _
    rw [decide_eq_true_iff, htop]

/-- Witness for C6: one 40 / one 60 deal against totals 0 and 100. -/
theorem concentration_risk_top2_over_total_witness :
    ForecastUtils.getConcentrationRisk
      [mkDeal "LEAD" "LOW" 40 0 0 0, mkDeal "LEAD" "LOW" 60 0 0 0] 0 = false
    ∧ (ForecastUtils.getConcentrationRisk
        [mkDeal "LEAD" "LOW" 40 0 0 0, mkDeal "LEAD" "LOW" 60 0 0 0] 100 = true
      ↔ 3 / 10 < top2Sum [mkDeal "LEAD" "LOW" 40 0 0 0, mkDeal "LEAD" "LOW" 60 0 0 0] / 100) :=
  ⟨(concentration_risk_top2_over_total
      [mkDeal "LEAD" "LOW" 40 0 0 0, mkDeal "LEAD" "LOW" 60 0 0 0] 0).1 rfl,
   (concentration_risk_top2_over_total
      [mkDeal "LEAD" "LOW" 40 0 0 0, mkDeal "LEAD" "LOW" 60 0 0 0] 100).2 (by norm_num)⟩

end SalesBuddy
